import Mathlib

/-!
Verification of the orchestration script `run.ts` of the steak repository.

The script is linear: it reads environment variables, selects a staking
contract address from a static network table (exiting with status 0 on an
unknown network), constructs a chain client, queries the sender balance,
optionally sends a test transfer after a confirmation prompt, authenticates
against a staking API, creates a stake intent after a second prompt, and
signs and broadcasts the returned unsigned transaction after a third prompt.

We embed the script as a function from its inputs (environment, the
externally supplied sender address, balance, stake-intent response, and the
answers to the interactive prompts) to the list of observable events it
performs, in order.  `process.exit(0)` truncates the event list after an
`exitProc 0` event.
-/

namespace Steak

/-- The environment variables `run.ts` declares on `Bun.env` (all strings). -/
structure Config where
  EXECUTION_API_KEY : String
  NETWORK : String
  PRIVATE_KEY : String
  RECEIVER_ADDRESS : String
  STAKING_API_KEY : String
deriving DecidableEq, Repr

/-- The two hardcoded staking contract addresses of the `switch` statement. -/
def mainnetContract : String := "0x3f124c700fb5e741f128e28985267d44f56b242f"

def holeskyContract : String := "0x0b6e07c5ead5596c1f26ca2f6b97050cec853671"

/-- `switch (Bun.env.NETWORK)` in `run.ts`: `"mainnet"` and `"holesky"` select
a contract address; every other value falls to the `default` branch, embedded
here as `none`. -/
def contractAddrFor (network : String) : Option String :=
  if network = "mainnet" then some mainnetContract
  else if network = "holesky" then some holeskyContract
  else none

/-!
## Exact decimal unit conversion

Modelled from the spec: the chain client's unit conversion
(`web3.utils.fromWei` / `web3.utils.toWei`, whose code is not part of this
repository) is "exact decimal arithmetic between the three denominations used
(base unit, ether-equivalent, gwei-equivalent, i.e. ×10^18, ×10^9 scaling)".
`fromWei` renders an integer base-unit amount as a decimal numeral
(integer part, then the fractional digits with trailing zeros trimmed);
`toWei` parses such a numeral back, padding the fractional digits to the
scale.  A `Decimal` ⟨i, f, l⟩ denotes the number i + f / 10^l, with the
fractional digits written as f left-padded with zeros to l digits.
-/

/-- A decimal numeral: integer part, fractional digits (as a number), and the
count of fractional digits. -/
structure Decimal where
  intPart : Nat
  fracNum : Nat
  fracLen : Nat
deriving DecidableEq, Repr

/-- Trim trailing zero digits from a fractional part of `len` digits,
returning the remaining digits and their count. -/
def trimFrac : Nat → Nat → Nat × Nat
  | _, 0 => (0, 0)
  | m, len + 1 => if m % 10 = 0 then trimFrac (m / 10) len else (m, len + 1)

/-- Render `n` base units at the given decimal scale (18 for ether, 9 for
gwei) as an exact decimal numeral, trailing fractional zeros trimmed. -/
def fromWei (n : Nat) (scale : Nat) : Decimal :=
  ⟨n / 10 ^ scale, (trimFrac (n % 10 ^ scale) scale).1,
    (trimFrac (n % 10 ^ scale) scale).2⟩

/-- Parse a decimal numeral back to base units at the given scale: the
fractional digits are padded with zeros on the right up to the scale. -/
def toWei (d : Decimal) (scale : Nat) : Nat :=
  d.intPart * 10 ^ scale + d.fracNum * 10 ^ (scale - d.fracLen)

/-- The JS literal `0.000001` (the test-transfer amount in ETH): JavaScript
prints this number back as the exact decimal string "0.000001", which
`web3.utils.toWei` parses; as a decimal numeral it is ⟨0, 1, 6⟩. -/
def amountInETH : Decimal := ⟨0, 1, 6⟩

/-- `const amountInGwei = 32 * 10 ** 9` in `run.ts`. -/
def amountInGwei : Nat := 32 * 10 ^ 9

/-!  ## Staking API request and response shapes -/

/-- One entry of the `stakes` array of the stake-intent request body. -/
structure Stake where
  amount : String
  withdrawal_address : String
deriving DecidableEq, Repr

/-- The body posted to `POST /v1/ethereum/{network}/stake-intents`. -/
structure StakeIntentRequest where
  stakes : List Stake
deriving DecidableEq, Repr

/-- Modelled from the spec: the `ethereum` member of the stake-intent
response, `{unsigned_transaction: hex string, contract_address: string, …}`
(the generated SDK's type declarations are not under the sources given). -/
structure EthereumIntent where
  unsigned_transaction : String
  contract_address : String
deriving DecidableEq, Repr

/-- Modelled from the spec: the stake-intent response,
`{ethereum: {...}}`; the script accesses it as `data.ethereum` with optional
chaining (`intent?.`), so the member is embedded as an `Option`. -/
structure StakeIntentResponse where
  ethereum : Option EthereumIntent
deriving DecidableEq, Repr

/-- A transaction as passed to `web3.eth.sendTransaction`: `from`, `to`,
`value` (in wei), and an optional `data` payload.  `from` and `to` are Lean
keywords, so the fields are named `fromAddr` and `toAddr`. -/
structure Tx where
  fromAddr : String
  toAddr : String
  value : Nat
  data : Option String
deriving DecidableEq, Repr

/-!  ## The event trace of the script -/

/-- The observable actions of `run.ts`, in program order.  Network calls are
`balanceQuery` (`web3.eth.getBalance`), `sendTestTransfer` (the first
`web3.eth.sendTransaction`), `stakeIntentCall`
(`steak.postEthereumStakeIntent`) and `signAndBroadcast` (the final
`web3.eth.sendTransaction`).  `authSet` (`steak.auth`) only records the key
locally.  `exitProc` is `process.exit`. -/
inductive Event where
  | print (s : String)
  | printBalance (d : Decimal)
  | printIntent (i : Option EthereumIntent)
  | printReceipt
  | prompt (s : String)
  | balanceQuery (address : String)
  | sendTestTransfer (tx : Tx)
  | authSet (apiKey : String)
  | stakeIntentCall (req : StakeIntentRequest) (network : String)
  | signAndBroadcast (tx : Tx)
  | exitProc (code : Nat)
deriving DecidableEq, Repr

/-- The request body built in `run.ts`:
`{stakes: [{amount: amountInGwei.toString(), withdrawal_address: sender.address}]}`. -/
def stakeReq (senderAddr : String) : StakeIntentRequest :=
  ⟨[⟨Nat.repr amountInGwei, senderAddr⟩]⟩

/-- The test transfer: `{from: sender.address, to: RECEIVER_ADDRESS,
value: web3.utils.toWei(amountInETH, "ether")}`. -/
def testTransferTx (senderAddr receiver : String) : Tx :=
  ⟨senderAddr, receiver, toWei amountInETH 18, none⟩

/-- The final transaction: `{from: sender.address, to: contractAddr,
value: web3.utils.toWei(amountInGwei, "gwei"),
data: intent?.unsigned_transaction}`. -/
def finalTx (senderAddr contractAddr : String) (resp : StakeIntentResponse) : Tx :=
  ⟨senderAddr, contractAddr, toWei ⟨amountInGwei, 0, 0⟩ 9,
    resp.ethereum.map EthereumIntent.unsigned_transaction⟩

/-- The part of `run.ts` after the network `switch` has selected a contract
address: the three prompts `a1`, `a2`, `a3` answer the `confirm` calls in
order; `balWei` is the balance returned by `getBalance` and `resp` the
stake-intent response. -/
def mainFlow (cfg : Config) (contractAddr senderAddr : String) (balWei : Nat)
    (resp : StakeIntentResponse) (a1 a2 a3 : Bool) : List Event :=
  [Event.print ("Sender Address: " ++ senderAddr),
   Event.balanceQuery senderAddr,
   Event.printBalance (fromWei balWei 18),
   Event.prompt ("Send 0.000001 ETH to the receiver " ++ cfg.RECEIVER_ADDRESS
     ++ " on " ++ cfg.NETWORK ++ " to validate the envs?")]
  ++ (if a1 then
        [Event.print "Sending to the receiver ...",
         Event.sendTestTransfer (testTransferTx senderAddr cfg.RECEIVER_ADDRESS),
         Event.printReceipt]
      else [])
  ++ [Event.print "🥩 🥩 🥩",
      Event.authSet cfg.STAKING_API_KEY,
      Event.prompt ("Create the unsigned transaction which sends 32 ETH to the contract "
        ++ contractAddr ++ " on " ++ cfg.NETWORK ++ "?")]
  ++ (if a2 then
        [Event.print "Creating the unsigned transaction ...",
         Event.stakeIntentCall (stakeReq senderAddr) cfg.NETWORK,
         Event.printIntent resp.ethereum,
         Event.prompt "Sign the unsigned transaction and send the signed one?"]
        ++ (if a3 then
              [Event.print "Processing ...",
               Event.signAndBroadcast (finalTx senderAddr contractAddr resp),
               Event.printReceipt]
            else [Event.exitProc 0])
      else [Event.exitProc 0])

/-- The whole script: the banner `console.log`, then the network `switch`
(diagnostic and `process.exit(0)` on an unknown network), then the main
flow. -/
def run (cfg : Config) (senderAddr : String) (balWei : Nat)
    (resp : StakeIntentResponse) (a1 a2 a3 : Bool) : List Event :=
  Event.print "😈 😈 😈" ::
    match contractAddrFor cfg.NETWORK with
    | some contractAddr => mainFlow cfg contractAddr senderAddr balWei resp a1 a2 a3
    | none => [Event.print ("Network " ++ cfg.NETWORK ++ " not supported"),
               Event.exitProc 0]

/-!  ## Event classifiers -/

/-- An event that reaches the network (RPC query, transfer, staking API
call, broadcast). -/
def isNetworkCall : Event → Bool
  | .balanceQuery _ => true
  | .sendTestTransfer _ => true
  | .stakeIntentCall _ _ => true
  | .signAndBroadcast _ => true
  | _ => false

def isStakeIntent : Event → Bool
  | .stakeIntentCall _ _ => true
  | _ => false

def isTestTransfer : Event → Bool
  | .sendTestTransfer _ => true
  | _ => false

def isBroadcast : Event → Bool
  | .signAndBroadcast _ => true
  | _ => false

def isPrompt : Event → Bool
  | .prompt _ => true
  | _ => false

/-- The number of interactive yes/no confirmation prompts in a trace. -/
def countPrompts (l : List Event) : Nat := (l.filter isPrompt).length

/-!  ## Concrete instances used by witnesses and counterexamples -/

def cfgMain : Config := ⟨"ekey", "mainnet", "pkey", "0xreceiver", "skey"⟩

def cfgHolesky : Config := ⟨"ekey", "holesky", "pkey", "0xreceiver", "skey"⟩

def cfgSepolia : Config := ⟨"ekey", "sepolia", "pkey", "0xreceiver", "skey"⟩

def respEx : StakeIntentResponse := ⟨some ⟨"0x02f87401", "0xcontract"⟩⟩

/-!  ## Exactness of unit conversion -/

/-- Trimming trailing zeros keeps the value of the fractional digits: padding
the trimmed digits back to the original length restores the number. -/
theorem trimFrac_restore :
    ∀ (len m : Nat), m < 10 ^ len →
      (trimFrac m len).1 * 10 ^ (len - (trimFrac m len).2) = m ∧
      (trimFrac m len).2 ≤ len := by
  intro len
  induction len with
  | zero =>
    intro m hm
    have hm0 : m = 0 := by simpa using Nat.lt_one_iff.mp (by simpa using hm)
    subst hm0
    simp [trimFrac]
  | succ len ih =>
    intro m hm
    by_cases h : m % 10 = 0
    · have hdiv : m / 10 < 10 ^ len := by
        rw [pow_succ] at hm
        omega
      obtain ⟨h1, h2⟩ := ih (m / 10) hdiv
      have hred : trimFrac m (len + 1) = trimFrac (m / 10) len := by
        simp [trimFrac, h]
      rw [hred]
      refine ⟨?_, by omega⟩
      have hs : len + 1 - (trimFrac (m / 10) len).2 =
          (len - (trimFrac (m / 10) len).2) + 1 := by omega
      rw [hs, pow_succ, ← Nat.mul_assoc, h1,
        Nat.div_mul_cancel (Nat.dvd_of_mod_eq_zero h)]
    · have hred : trimFrac m (len + 1) = (m, len + 1) := by
        simp [trimFrac, h]
      rw [hred]
      simp

/-- Converting an integer base-unit amount to a decimal numeral and parsing
it back is the identity, at every scale. -/
theorem toWei_fromWei (n scale : Nat) : toWei (fromWei n scale) scale = n := by
  have hlt : n % 10 ^ scale < 10 ^ scale :=
    Nat.mod_lt n (by positivity)
  have h := trimFrac_restore scale (n % 10 ^ scale) hlt
  unfold toWei fromWei
  simp only
  rw [h.1, Nat.mul_comm]
  exact Nat.div_add_mod n (10 ^ scale)

/-- C2: for every integer amount in wei, converting to the display unit
(ether, scale 18, or gwei, scale 9) with `fromWei` and back with `toWei`
reproduces the original integer exactly — in particular at 1, 10^9, 10^18
and 32×10^9, the staking deposit amount. -/
theorem c2_unit_conversion_round_trip (n : Nat) :
    toWei (fromWei n 18) 18 = n ∧ toWei (fromWei n 9) 9 = n :=
  ⟨toWei_fromWei n 18, toWei_fromWei n 9⟩

/-- C10: the two transaction values the script computes are exact: the test
transfer's `value` is `toWei 0.000001 ether` = 10^12 wei exactly, and the
final staking transaction's `value` is `toWei (32·10^9) gwei` = 32·10^18 wei
exactly, with no floating-point drift. -/
theorem c10_transaction_values_exact (s r ca : String) (resp : StakeIntentResponse) :
    (testTransferTx s r).value = 10 ^ 12 ∧
    (finalTx s ca resp).value = 32 * 10 ^ 18 := by
  constructor
  · show toWei amountInETH 18 = 10 ^ 12
    norm_num [toWei, amountInETH]
  · show toWei ⟨amountInGwei, 0, 0⟩ 9 = 32 * 10 ^ 18
    norm_num [toWei, amountInGwei]

/-!  ## The static network table -/

/-- C7: the contract address selected for each known network identifier is
deterministic and matches the static table: "mainnet" and "holesky" map to
their hardcoded addresses, and every other identifier is invalid (no
address is selected). -/
theorem c7_contract_table (s : String)
    (h1 : s ≠ "mainnet") (h2 : s ≠ "holesky") :
    contractAddrFor "mainnet" = some "0x3f124c700fb5e741f128e28985267d44f56b242f" ∧
    contractAddrFor "holesky" = some "0x0b6e07c5ead5596c1f26ca2f6b97050cec853671" ∧
    contractAddrFor s = none := by
  refine ⟨by decide, by decide, ?_⟩
  unfold contractAddrFor
  rw [if_neg h1, if_neg h2]

/-- Witness for C7 at the concrete unknown identifier "sepolia". -/
theorem c7_contract_table_witness :
    contractAddrFor "mainnet" = some "0x3f124c700fb5e741f128e28985267d44f56b242f" ∧
    contractAddrFor "holesky" = some "0x0b6e07c5ead5596c1f26ca2f6b97050cec853671" ∧
    contractAddrFor "sepolia" = none :=
  c7_contract_table "sepolia" (by decide) (by decide)

/-!  ## Behaviour on an unsupported network -/

/-- C1: on any network identifier other than "mainnet" and "holesky", the
script prints the diagnostic and exits with status 0; the whole trace is the
banner, the diagnostic and `exitProc 0`, so no network call (balance query,
transfer, staking API call or broadcast) is ever made. -/
theorem c1_unsupported_network_exits (cfg : Config) (senderAddr : String)
    (balWei : Nat) (resp : StakeIntentResponse) (a1 a2 a3 : Bool)
    (h1 : cfg.NETWORK ≠ "mainnet") (h2 : cfg.NETWORK ≠ "holesky") :
    run cfg senderAddr balWei resp a1 a2 a3 =
      [Event.print "😈 😈 😈",
       Event.print ("Network " ++ cfg.NETWORK ++ " not supported"),
       Event.exitProc 0] ∧
    ∀ e ∈ run cfg senderAddr balWei resp a1 a2 a3, isNetworkCall e = false := by
  have hc : contractAddrFor cfg.NETWORK = none := by
    unfold contractAddrFor
    rw [if_neg h1, if_neg h2]
  have hrun : run cfg senderAddr balWei resp a1 a2 a3 =
      [Event.print "😈 😈 😈",
       Event.print ("Network " ++ cfg.NETWORK ++ " not supported"),
       Event.exitProc 0] := by
    unfold run
    rw [hc]
  refine ⟨hrun, ?_⟩
  rw [hrun]
  intro e he
  simp only [List.mem_cons, List.not_mem_nil, or_false] at he
  rcases he with rfl | rfl | rfl <;> rfl

/-- Witness for C1 at the concrete unknown identifier "sepolia". -/
theorem c1_unsupported_network_exits_witness :
    run cfgSepolia "0xsender" 0 respEx true true true =
      [Event.print "😈 😈 😈",
       Event.print ("Network " ++ cfgSepolia.NETWORK ++ " not supported"),
       Event.exitProc 0] :=
  (c1_unsupported_network_exits cfgSepolia "0xsender" 0 respEx true true true
    (by decide) (by decide)).1

/-!  ## Helper lemmas about the trace -/

theorem run_none (cfg : Config) (senderAddr : String) (balWei : Nat)
    (resp : StakeIntentResponse) (a1 a2 a3 : Bool)
    (hca : contractAddrFor cfg.NETWORK = none) :
    run cfg senderAddr balWei resp a1 a2 a3 =
      [Event.print "😈 😈 😈",
       Event.print ("Network " ++ cfg.NETWORK ++ " not supported"),
       Event.exitProc 0] := by
  unfold run
  rw [hca]

theorem run_some (cfg : Config) (senderAddr : String) (balWei : Nat)
    (resp : StakeIntentResponse) (a1 a2 a3 : Bool) (ca : String)
    (hca : contractAddrFor cfg.NETWORK = some ca) :
    run cfg senderAddr balWei resp a1 a2 a3 =
      Event.print "😈 😈 😈" :: mainFlow cfg ca senderAddr balWei resp a1 a2 a3 := by
  unfold run
  rw [hca]

/-- A trace whose filtering by `p` is empty has no event satisfying `p`. -/
theorem eq_false_of_filter_nil {p : Event → Bool} :
    ∀ l : List Event, l.filter p = [] → ∀ e ∈ l, p e = false := by
  intro l
  induction l with
  | nil => intro _ e he; cases he
  | cons a l ih =>
    intro hf e he
    rw [List.filter_cons] at hf
    by_cases hpa : p a = true
    · simp [hpa] at hf
    · rcases List.mem_cons.mp he with rfl | hm
      · simpa using hpa
      · exact ih (by simpa [hpa] using hf) e hm

theorem mainFlow_no_broadcast (cfg : Config) (ca senderAddr : String)
    (balWei : Nat) (resp : StakeIntentResponse) (a1 a2 a3 : Bool)
    (h : a2 = false ∨ a3 = false) :
    (mainFlow cfg ca senderAddr balWei resp a1 a2 a3).filter isBroadcast = [] := by
  rcases h with rfl | rfl
  · cases a1 <;> cases a3 <;> simp [mainFlow, List.filter_cons, isBroadcast]
  · cases a1 <;> cases a2 <;> simp [mainFlow, List.filter_cons, isBroadcast]

theorem mainFlow_no_stakeIntent (cfg : Config) (ca senderAddr : String)
    (balWei : Nat) (resp : StakeIntentResponse) (a1 a3 : Bool) :
    (mainFlow cfg ca senderAddr balWei resp a1 false a3).filter isStakeIntent = [] := by
  cases a1 <;> cases a3 <;> simp [mainFlow, List.filter_cons, isStakeIntent]

theorem mainFlow_ends_exit (cfg : Config) (ca senderAddr : String)
    (balWei : Nat) (resp : StakeIntentResponse) (a1 a2 a3 : Bool)
    (h : a2 = false ∨ a3 = false) :
    (Event.print "😈 😈 😈" ::
      mainFlow cfg ca senderAddr balWei resp a1 a2 a3).getLast? =
      some (Event.exitProc 0) := by
  rcases h with rfl | rfl
  · cases a1 <;> cases a3 <;> simp [mainFlow]
  · cases a1 <;> cases a2 <;> simp [mainFlow]

/-!  ## The stake-intent request body -/

/-- C3: every stake-intent request the script sends has exactly one stake
entry; its `amount` is the decimal string of the integer 32·10^9 (the
staking deposit amount in gwei) and its `withdrawal_address` is the sender's
address string. -/
theorem c3_stake_intent_request (cfg : Config) (senderAddr : String)
    (balWei : Nat) (resp : StakeIntentResponse) (a1 a2 a3 : Bool)
    (req : StakeIntentRequest) (net : String)
    (h : Event.stakeIntentCall req net ∈ run cfg senderAddr balWei resp a1 a2 a3) :
    req.stakes = [⟨Nat.repr (32 * 10 ^ 9), senderAddr⟩] ∧
    Nat.repr (32 * 10 ^ 9) = "32000000000" := by
  refine ⟨?_, by decide⟩
  rcases hca : contractAddrFor cfg.NETWORK with _ | ca
  · rw [run_none _ _ _ _ _ _ _ hca] at h
    simp at h
  · rw [run_some _ _ _ _ _ _ _ _ hca] at h
    cases a1 <;> cases a2 <;> cases a3 <;> simp [mainFlow, stakeReq] at h <;>
      (obtain ⟨rfl, -⟩ := h; rfl)

/-- Witness for C3: the request event observed in a concrete full run. -/
theorem c3_stake_intent_request_witness :
    (⟨[⟨"32000000000", "0xsender"⟩]⟩ : StakeIntentRequest).stakes =
      [⟨Nat.repr (32 * 10 ^ 9), "0xsender"⟩] ∧
    Nat.repr (32 * 10 ^ 9) = "32000000000" :=
  c3_stake_intent_request cfgMain "0xsender" 7 respEx true true true
    ⟨[⟨"32000000000", "0xsender"⟩]⟩ "mainnet" (by decide)

/-!  ## Declining the confirmations -/

/-- C4: when the test-transfer prompt is declined, no test transfer is
broadcast, and the flow still reaches the staking step: the staking API key
is still attached and the create-intent prompt is still shown. -/
theorem c4_decline_test_transfer (cfg : Config) (senderAddr : String)
    (balWei : Nat) (resp : StakeIntentResponse) (a1 a2 a3 : Bool) (ca : String)
    (hca : contractAddrFor cfg.NETWORK = some ca) (h1 : a1 = false) :
    (∀ e ∈ run cfg senderAddr balWei resp a1 a2 a3, isTestTransfer e = false) ∧
    Event.authSet cfg.STAKING_API_KEY ∈ run cfg senderAddr balWei resp a1 a2 a3 ∧
    Event.prompt ("Create the unsigned transaction which sends 32 ETH to the contract "
      ++ ca ++ " on " ++ cfg.NETWORK ++ "?") ∈
      run cfg senderAddr balWei resp a1 a2 a3 := by
  subst h1
  rw [run_some _ _ _ _ _ _ _ _ hca]
  refine ⟨?_, ?_, ?_⟩
  · apply eq_false_of_filter_nil
    cases a2 <;> cases a3 <;> simp [mainFlow, List.filter_cons, isTestTransfer]
  · cases a2 <;> cases a3 <;> simp [mainFlow]
  · cases a2 <;> cases a3 <;> simp [mainFlow]

/-- Witness for C4: in a holesky run with every prompt declined, the staking
API key is still attached. -/
theorem c4_decline_test_transfer_witness :
    Event.authSet cfgHolesky.STAKING_API_KEY ∈
      run cfgHolesky "0xsender" 7 respEx false false false :=
  (c4_decline_test_transfer cfgHolesky "0xsender" 7 respEx false false false
    holeskyContract (by decide) rfl).2.1

/-- C5: when the create-intent prompt or the sign-and-send prompt is
declined, the final transaction is never broadcast and the run ends with
`process.exit(0)`; when the create-intent prompt is the declined one, the
stake-intent API call is never made either. -/
theorem c5_decline_clean_exit (cfg : Config) (senderAddr : String)
    (balWei : Nat) (resp : StakeIntentResponse) (a1 a2 a3 : Bool)
    (h : a2 = false ∨ a3 = false) :
    (∀ e ∈ run cfg senderAddr balWei resp a1 a2 a3, isBroadcast e = false) ∧
    (a2 = false →
      ∀ e ∈ run cfg senderAddr balWei resp a1 a2 a3, isStakeIntent e = false) ∧
    (run cfg senderAddr balWei resp a1 a2 a3).getLast? =
      some (Event.exitProc 0) := by
  rcases hca : contractAddrFor cfg.NETWORK with _ | ca
  · rw [run_none _ _ _ _ _ _ _ hca]
    refine ⟨eq_false_of_filter_nil _ (by simp [List.filter_cons, isBroadcast]),
      fun _ => eq_false_of_filter_nil _ (by simp [List.filter_cons, isStakeIntent]),
      by simp⟩
  · rw [run_some _ _ _ _ _ _ _ _ hca]
    refine ⟨?_, fun h2 => ?_, mainFlow_ends_exit cfg ca senderAddr balWei resp a1 a2 a3 h⟩
    · apply eq_false_of_filter_nil
      have hflow := mainFlow_no_broadcast cfg ca senderAddr balWei resp a1 a2 a3 h
      simp [List.filter_cons, isBroadcast, hflow]
    · subst h2
      apply eq_false_of_filter_nil
      have hflow := mainFlow_no_stakeIntent cfg ca senderAddr balWei resp a1 a3
      simp [List.filter_cons, isStakeIntent, hflow]

/-- Witness for C5: a mainnet run with the create-intent prompt declined
ends with exit status 0. -/
theorem c5_decline_clean_exit_witness :
    (run cfgMain "0xsender" 7 respEx true false false).getLast? =
      some (Event.exitProc 0) :=
  (c5_decline_clean_exit cfgMain "0xsender" 7 respEx true false false
    (Or.inl rfl)).2.2

/-!  ## Ordering of the network calls -/

/-- C6: in every run, wherever a stake-intent API call occurs in the trace,
the execution-chain balance query occurs strictly before it. -/
theorem c6_balance_query_before_stake_intent (cfg : Config) (senderAddr : String)
    (balWei : Nat) (resp : StakeIntentResponse) (a1 a2 a3 : Bool)
    (pre post : List Event) (e : Event)
    (hsplit : run cfg senderAddr balWei resp a1 a2 a3 = pre ++ e :: post)
    (he : isStakeIntent e = true) :
    Event.balanceQuery senderAddr ∈ pre := by
  rcases hca : contractAddrFor cfg.NETWORK with _ | ca
  · exfalso
    have hmem : e ∈ run cfg senderAddr balWei resp a1 a2 a3 := by
      rw [hsplit]
      exact List.mem_append_right _ (List.mem_cons_self _ _)
    rw [run_none _ _ _ _ _ _ _ hca] at hmem
    simp only [List.mem_cons, List.not_mem_nil, or_false] at hmem
    rcases hmem with rfl | rfl | rfl <;> simp [isStakeIntent] at he
  · rw [run_some _ _ _ _ _ _ _ _ hca] at hsplit
    unfold mainFlow at hsplit
    simp only [List.cons_append, List.nil_append, List.append_assoc] at hsplit
    rcases pre with _ | ⟨x, _ | ⟨y, _ | ⟨z, pre'⟩⟩⟩ <;>
      simp only [List.cons_append, List.nil_append] at hsplit
    · injection hsplit with hx _
      rw [← hx] at he
      simp [isStakeIntent] at he
    · injection hsplit with _ hsplit
      injection hsplit with hx _
      rw [← hx] at he
      simp [isStakeIntent] at he
    · injection hsplit with _ hsplit
      injection hsplit with _ hsplit
      injection hsplit with hx _
      rw [← hx] at he
      simp [isStakeIntent] at he
    · injection hsplit with _ hsplit
      injection hsplit with _ hsplit
      injection hsplit with hz _
      rw [← hz]
      exact List.mem_cons_of_mem _ (List.mem_cons_of_mem _ (List.mem_cons_self _ _))

/-- Witness for C6: in a concrete full run the balance query lies among the
events before the stake-intent call (which sits at index 9). -/
theorem c6_balance_query_before_stake_intent_witness :
    Event.balanceQuery "0xsender" ∈
      (run cfgMain "0xsender" 7 respEx false true true).take 9 :=
  c6_balance_query_before_stake_intent cfgMain "0xsender" 7 respEx false true true
    ((run cfgMain "0xsender" 7 respEx false true true).take 9)
    ((run cfgMain "0xsender" 7 respEx false true true).drop 10)
    (Event.stakeIntentCall ⟨[⟨"32000000000", "0xsender"⟩]⟩ "mainnet")
    (by decide) rfl

/-!  ## The confirmation prompts -/

/-- C8 counterexample: a complete run (supported network, every prompt
accepted) contains three confirmation prompts, so its prompt count is not
two as claimed. -/
theorem c8_two_prompts_counterexample :
    ¬ countPrompts (run cfgMain "0xsender" 7 respEx true true true) = 2 := by
  decide

/-- C8 amended: a complete run of the orchestration flow presents exactly
three yes/no confirmation prompts (test transfer, create intent, sign and
send). -/
theorem c8_three_prompts (cfg : Config) (senderAddr : String) (balWei : Nat)
    (resp : StakeIntentResponse) (a1 a2 a3 : Bool) (ca : String)
    (hca : contractAddrFor cfg.NETWORK = some ca)
    (h1 : a1 = true) (h2 : a2 = true) (h3 : a3 = true) :
    countPrompts (run cfg senderAddr balWei resp a1 a2 a3) = 3 := by
  subst h1
  subst h2
  subst h3
  rw [run_some _ _ _ _ _ _ _ _ hca]
  simp [countPrompts, mainFlow, List.filter_cons, isPrompt]

/-- Witness for C8's amended statement on a concrete mainnet run. -/
theorem c8_three_prompts_witness :
    countPrompts (run cfgMain "0xsender" 7 respEx true true true) = 3 :=
  c8_three_prompts cfgMain "0xsender" 7 respEx true true true mainnetContract
    (by decide) rfl rfl rfl

/-!  ## The final broadcast transaction -/

/-- C9: every transaction the script signs and broadcasts at the end has as
recipient (`to`) the contract address selected from the static network table
at configuration time, and carries in its `data` field exactly the
`ethereum.unsigned_transaction` of the stake-intent response; the
transaction built from the response does not depend on any other response
field (in particular not on its `contract_address`). -/
theorem c9_broadcast_targets_table_contract (cfg : Config) (senderAddr : String)
    (balWei : Nat) (resp : StakeIntentResponse) (a1 a2 a3 : Bool) (tx : Tx)
    (h : Event.signAndBroadcast tx ∈ run cfg senderAddr balWei resp a1 a2 a3) :
    contractAddrFor cfg.NETWORK = some tx.toAddr ∧
    tx.data = resp.ethereum.map EthereumIntent.unsigned_transaction ∧
    ∀ r1 r2 : StakeIntentResponse,
      r1.ethereum.map EthereumIntent.unsigned_transaction =
        r2.ethereum.map EthereumIntent.unsigned_transaction →
      finalTx senderAddr tx.toAddr r1 = finalTx senderAddr tx.toAddr r2 := by
  have hind : ∀ (s c : String) (r1 r2 : StakeIntentResponse),
      r1.ethereum.map EthereumIntent.unsigned_transaction =
        r2.ethereum.map EthereumIntent.unsigned_transaction →
      finalTx s c r1 = finalTx s c r2 := by
    intro s c r1 r2 hr
    unfold finalTx
    rw [hr]
  rcases hca : contractAddrFor cfg.NETWORK with _ | ca
  · rw [run_none _ _ _ _ _ _ _ hca] at h
    simp at h
  · rw [run_some _ _ _ _ _ _ _ _ hca] at h
    cases a1 <;> cases a2 <;> cases a3 <;> simp [mainFlow] at h <;>
      (obtain rfl := h; exact ⟨rfl, rfl, hind senderAddr ca⟩)

/-- Witness for C9: the broadcast transaction of a concrete full mainnet
run. -/
theorem c9_broadcast_targets_table_contract_witness :
    contractAddrFor cfgMain.NETWORK =
      some (finalTx "0xsender" mainnetContract respEx).toAddr ∧
    (finalTx "0xsender" mainnetContract respEx).data =
      respEx.ethereum.map EthereumIntent.unsigned_transaction ∧
    ∀ r1 r2 : StakeIntentResponse,
      r1.ethereum.map EthereumIntent.unsigned_transaction =
        r2.ethereum.map EthereumIntent.unsigned_transaction →
      finalTx "0xsender" (finalTx "0xsender" mainnetContract respEx).toAddr r1 =
        finalTx "0xsender" (finalTx "0xsender" mainnetContract respEx).toAddr r2 :=
  c9_broadcast_targets_table_contract cfgMain "0xsender" 7 respEx true true true
    (finalTx "0xsender" mainnetContract respEx) (by decide)

end Steak
